import Mathlib

/-!
Shallow embedding of the viewport-cli process-orchestration core.

The embedding covers, from the repository sources:
- the device registry, `captureScreenshot`, the `/scan` handler, the health
  handler and `start` of `src/screenshot-server/index.js`;
- the concurrency-slot discipline of `captureScreenshot` as a step relation
  on the module-level `concurrentPages` counter;
- `isServerRunning`, `waitForServer`, `ensureServerRunning`, `killServer`
  and `killPortProcess` of the Node launcher (`lib/launcher.js`, shipped in
  the same file as the server);
- `Manager.IsRunning` and `Manager.Start` of `src/cli/pkg/server/manager.go`;
- the URL-extraction scan of `TunnelManager.Start` in
  `src/cli/pkg/tunnel/tunnel.go`.

Environment interactions (browser, HTTP probes, subprocesses, the OS) are
passed in explicitly as data; the functions themselves are translated from
the source line by line.
-/

namespace ViewportCLI

/-- Entry of the DEVICE_VIEWPORTS table (index.js lines 41-45): width,
height and the uppercase display name. -/
structure DeviceViewport where
  width : Nat
  height : Nat
  name : String
deriving DecidableEq, Repr

/-- Device viewport configurations, index.js lines 41-45. -/
def DEVICE_VIEWPORTS : List (String × DeviceViewport) :=
  [("mobile", ⟨375, 667, "MOBILE"⟩),
   ("tablet", ⟨768, 1024, "TABLET"⟩),
   ("desktop", ⟨1920, 1080, "DESKTOP"⟩)]

/-- Lookup `DEVICE_VIEWPORTS[device]` (a JS object access; absent keys give
undefined, modelled as `none`). -/
def lookupDevice (device : String) : Option DeviceViewport :=
  (DEVICE_VIEWPORTS.find? (fun e => e.1 == device)).map (fun e => e.2)

/-- Behaviour of the browser environment during one `captureScreenshot`
call: whether the module-level `browser` is non-null, whether `page.goto`
resolves within its timeout, whether `page.screenshot` resolves, and the
base64 data it produces (possibly empty). -/
structure CaptureEnv where
  browserUp : Bool
  navOk : Bool
  shotOk : Bool
  shotData : String
deriving DecidableEq, Repr

/-- Resource footprint of one `captureScreenshot` call: whether the
`concurrentPages` slot taken at entry was given back, whether
`browser.newPage()` ran, and whether `page.close()` ran. -/
structure CaptureEffects where
  slotReleased : Bool
  pageOpened : Bool
  pageClosed : Bool
deriving DecidableEq, Repr

/-- Navigation timeout passed to `page.goto` (index.js line 112). -/
def NAV_TIMEOUT_MS : Nat := 30000

/-- Embedding of `captureScreenshot` (index.js lines 81-133). The slot is
taken before the `try` and given back on both the success path and in the
`catch`, so `slotReleased` is true in every branch; `page.close()` appears
only on the success path (line 124), so an error after `newPage` leaves the
page open. -/
def captureScreenshot (env : CaptureEnv) (device : String) :
    Except String String × CaptureEffects :=
  if env.browserUp then
    match lookupDevice device with
    | none => (Except.error ("Unknown device: " ++ device), ⟨true, false, false⟩)
    | some _ =>
      if env.navOk then
        if env.shotOk then
          (Except.ok env.shotData, ⟨true, true, true⟩)
        else
          (Except.error "screenshot failed", ⟨true, true, false⟩)
      else
        (Except.error "Navigation timeout exceeded", ⟨true, true, false⟩)
  else
    (Except.error "Browser not initialized", ⟨true, false, false⟩)

/-- Entry of the `results` array built by the `/scan` handler (index.js
lines 188-215): device name lowercased, dimensions from the registry with 0
for unknown devices, the base64 data, and the optional `error` field. -/
structure ScanItem where
  device : String
  width : Nat
  height : Nat
  screenshotBase64 : String
  error : Option String
deriving DecidableEq, Repr

/-- Per-device branch of the `/scan` fan-out (index.js lines 188-215): a
successful capture yields data and no `error` field; a failed capture
yields empty data plus the error message. -/
def scanItem (env : String → CaptureEnv) (device : String) : ScanItem :=
  match (captureScreenshot (env device) device).1 with
  | Except.ok data =>
    { device := device.toLower
      width := ((lookupDevice device).map (fun v => v.width)).getD 0
      height := ((lookupDevice device).map (fun v => v.height)).getD 0
      screenshotBase64 := data
      error := none }
  | Except.error e =>
    { device := device.toLower
      width := ((lookupDevice device).map (fun v => v.width)).getD 0
      height := ((lookupDevice device).map (fun v => v.height)).getD 0
      screenshotBase64 := ""
      error := some e }

/-- Body of the `/scan` response (index.js lines 219-225). -/
structure ScanResponse where
  scanId : String
  status : String
  results : List ScanItem
deriving DecidableEq, Repr

/-- Embedding of the `/scan` handler (index.js lines 168-236): devices
default to the full list when `viewports` is absent, every device is
captured, and the response carries `scan-` plus `Date.now()` as scanId, the
constant status string `complete`, and the results FILTERED to those
without an error (line 223: `results.filter(r => !r.error)`). -/
def scanHandler (env : String → CaptureEnv) (viewports : Option (List String))
    (now : Nat) : ScanResponse :=
  let devices := viewports.getD ["mobile", "tablet", "desktop"]
  let results := devices.map (scanItem env)
  { scanId := "scan-" ++ toString now
    status := "complete"
    results := results.filter (fun r => r.error.isNone) }

/-- Whether the capture of one device succeeds under `env`. -/
def captureOk (env : String → CaptureEnv) (device : String) : Bool :=
  match (captureScreenshot (env device) device).1 with
  | Except.ok _ => true
  | Except.error _ => false

/-- Body and HTTP status of the health-check response. -/
structure HealthResponse where
  httpStatus : Nat
  status : String
  service : String
  devices : List String
deriving DecidableEq, Repr

/-- Embedding of the health-check handler (index.js lines 157-165). The
handler closure reads no browser state: it unconditionally writes HTTP 200
with a fixed body. The `browserUp` argument records the service state the
handler could have consulted. -/
def healthHandler (browserUp : Bool) : HealthResponse :=
  { httpStatus := 200
    status := "ok"
    service := "local-screenshot-server"
    devices := DEVICE_VIEWPORTS.map (fun e => e.1) }

/-- Outcome of the `start` function of index.js. -/
inductive StartOutcome where
  | listening (port : Nat)
  | exitProcess (code : Nat)
deriving DecidableEq, Repr

/-- Embedding of `start` (index.js lines 348-364): `initBrowser` is awaited
before `server.listen`; if it throws, the catch calls `process.exit(1)`, so
the service never runs in a degraded state. -/
def startServer (browserInitOk : Bool) (port : Nat) : StartOutcome :=
  if browserInitOk then StartOutcome.listening port
  else StartOutcome.exitProcess 1

/-- Concurrency cap on simultaneous pages (index.js line 49). -/
def MAX_CONCURRENT_PAGES : Nat := 3

/-- Polling interval of the slot-wait loop (index.js line 84). -/
def POLL_INTERVAL_MS : Nat := 100

/-- Step relation on the module-level `concurrentPages` counter. JS runs
the handler callbacks on a single thread, so the final check of the
`while (concurrentPages >= MAX_CONCURRENT_PAGES)` loop and the following
`concurrentPages++` execute atomically: an increment can only fire from a
state strictly below the cap. Decrements are the two `concurrentPages--`
sites (success path and catch). A caller that observes a full table sleeps
100ms and re-polls, leaving the counter unchanged. -/
inductive CapStep : Nat → Nat → Prop where
  | acquire (n : Nat) (h : n < MAX_CONCURRENT_PAGES) : CapStep n (n + 1)
  | release (n : Nat) : CapStep (n + 1) n
  | wait (n : Nat) (h : MAX_CONCURRENT_PAGES ≤ n) : CapStep n n

/-- States of the counter reachable from process start (counter 0). -/
def CapReachable (n : Nat) : Prop :=
  Relation.ReflTransGen CapStep 0 n

/-- Result of one HTTP health probe against GET / on the target port:
either a response with some status code, or no response (connection
refused, error, or timeout). -/
inductive ProbeResult where
  | status (code : Nat)
  | noResponse
deriving DecidableEq, Repr

/-- Embedding of `isServerRunning` of the Node launcher (launcher.js): the
probe resolves true only when the response status code is exactly 200; any
other status, an error or a timeout resolves false. -/
def isServerRunning : ProbeResult → Bool
  | ProbeResult.status code => code == 200
  | ProbeResult.noResponse => false

/-- Health-poll attempts used by `ensureServerRunning` (launcher.js calls
`waitForServer(port, 60, 500)`). -/
def JS_HEALTH_ATTEMPTS : Nat := 60

/-- Health-poll interval of `ensureServerRunning`, in ms. -/
def JS_HEALTH_INTERVAL_MS : Nat := 500

/-- Embedding of `waitForServer` (launcher.js): up to `maxAttempts` probes,
stopping at the first success; `polls i` is what probe number `i` would
observe. The loop returns whether any attempted probe succeeded. -/
def waitForServer (polls : Nat → ProbeResult) (maxAttempts : Nat) : Bool :=
  (List.range maxAttempts).any (fun i => isServerRunning (polls i))

/-- Environment of one `ensureServerRunning` call: the initial probe
result, whether `spawn` itself succeeds, and the results of the successive
health polls after spawning. -/
structure LaunchEnv where
  probe : ProbeResult
  spawnOk : Bool
  polls : Nat → ProbeResult

/-- Process effects of one `ensureServerRunning` call: whether a child was
spawned, and whether that child was killed before returning. -/
structure EnsureEffects where
  spawned : Bool
  killedChild : Bool
deriving DecidableEq, Repr

/-- Embedding of `ensureServerRunning` (launcher.js): probe once; when the
probe succeeds, return the URL without spawning. Otherwise (with autoStart)
spawn the server and poll `waitForServer(port, 60, 500)`. When the polls
all fail it throws the health-timeout error WITHOUT killing the child it
spawned: no kill call appears on that path in the source. -/
def ensureServerRunning (port : Nat) (autoStart : Bool) (env : LaunchEnv) :
    Except String String × EnsureEffects :=
  let serverUrl := "http://localhost:" ++ toString port
  if isServerRunning env.probe then
    (Except.ok serverUrl, ⟨false, false⟩)
  else if autoStart = false then
    (Except.error ("Server is not running on port " ++ toString port ++
      ". Set autoStart=true to spawn it automatically."), ⟨false, false⟩)
  else if env.spawnOk = false then
    (Except.error "Failed to spawn server", ⟨false, false⟩)
  else if waitForServer env.polls JS_HEALTH_ATTEMPTS then
    (Except.ok serverUrl, ⟨true, false⟩)
  else
    (Except.error ("Server failed to start or health check timed out on port " ++
      toString port), ⟨true, false⟩)

/-- Embedding of `Manager.IsRunning` (manager.go lines 30-49): a response
with status 200 OR 503 counts as running (503 means the process is up but
its browser failed to initialize); no response counts as not running. -/
def managerIsRunning : ProbeResult → Bool
  | ProbeResult.status code => code == 200 || code == 503
  | ProbeResult.noResponse => false

/-- Health-poll attempts of `Manager.Start` (manager.go line 124). -/
def GO_HEALTH_ATTEMPTS : Nat := 30

/-- Health-poll interval of `Manager.Start`, in ms (manager.go line 132). -/
def GO_HEALTH_INTERVAL_MS : Nat := 500

/-- Environment of one `Manager.Start` call, mirroring `LaunchEnv`. -/
structure GoStartEnv where
  probe : ProbeResult
  spawnOk : Bool
  polls : Nat → ProbeResult

/-- Embedding of `Manager.Start` (manager.go lines 98-137): when the
initial `IsRunning` probe succeeds (200 or 503), return nil without
spawning; otherwise spawn and poll up to 30 times; when every poll fails,
`m.cmd.Process.Kill()` runs BEFORE the error is returned (line 135). -/
def managerStart (env : GoStartEnv) : Except String Unit × EnsureEffects :=
  if managerIsRunning env.probe then
    (Except.ok (), ⟨false, false⟩)
  else if env.spawnOk = false then
    (Except.error "failed to start screenshot server", ⟨false, false⟩)
  else if (List.range GO_HEALTH_ATTEMPTS).any (fun i => managerIsRunning (env.polls i)) then
    (Except.ok (), ⟨true, false⟩)
  else
    (Except.error ("screenshot server failed to start after " ++
      toString (GO_HEALTH_ATTEMPTS / 2) ++ " seconds"), ⟨true, true⟩)

/-- One process visible to the OS on the machine: its pid, whether it is
currently listening on the port in question, and whether it is the child
the launcher spawned. -/
structure PortProc where
  pid : Nat
  listensOnPort : Bool
  spawnedByLauncher : Bool
deriving DecidableEq, Repr

/-- Embedding of `killPortProcess` (launcher.js lines 647-662): on Unix it
runs `lsof -ti:port | xargs kill -9`, force-killing every process currently
listening on the port, whatever its origin. The result is the list of
processes killed. -/
def killPortProcess (procs : List PortProc) : List PortProc :=
  procs.filter (fun p => p.listensOnPort)

/-- State relevant to one `killServer` call: whether a live tracked child
exists (`serverProcess && !serverProcess.killed`), and whether that child
exits within the 2s grace period after SIGINT. -/
structure KillEnv where
  tracked : Bool
  gracefulExit : Bool
deriving DecidableEq, Repr

/-- Signals sent by one `killServer` call, plus whether the port-wide sweep
`killPortProcess(port)` was invoked. -/
structure KillEffects where
  sigintSent : Bool
  sigkillSent : Bool
  portSwept : Bool
deriving DecidableEq, Repr

/-- Embedding of `killServer` (launcher.js lines 841-863): with a live
tracked child it sends SIGINT, then SIGKILL if the child has not exited
after 2 seconds, and in either continuation calls `killPortProcess(port)`;
with no tracked child it calls `killPortProcess(port)` directly. Every
branch ends in the port-wide sweep. -/
def killServer (env : KillEnv) : KillEffects :=
  if env.tracked then
    if env.gracefulExit then ⟨true, false, true⟩
    else ⟨true, true, true⟩
  else ⟨false, false, true⟩

/-- Overall timeout of the tunnel URL scan (tunnel.go line 75). -/
def TUNNEL_TIMEOUT_MS : Nat := 15000

/-- Check whether `sub` occurs contiguously at the head of `l`. -/
def startsWithChars : List Char → List Char → Bool
  | _, [] => true
  | [], _ :: _ => false
  | c :: cs, d :: ds => c == d && startsWithChars cs ds

/-- Check whether `sub` occurs contiguously anywhere in the list. -/
def occursIn (sub : List Char) : List Char → Bool
  | [] => startsWithChars [] sub
  | c :: cs => startsWithChars (c :: cs) sub || occursIn sub cs

/-- Characters admitted by the host part of the cloudflared URL pattern
`[a-zA-Z0-9-]`. -/
def isHostChar (c : Char) : Bool :=
  c.isAlphanum || c == '-'

/-- Longest run of host characters at the head of the list. -/
def hostRun : List Char → List Char
  | [] => []
  | c :: cs => if isHostChar c then c :: hostRun cs else []

/-- Try to match the cloudflared URL pattern starting exactly at the head
of `l`: the literal `https://`, one or more host characters, then the
literal `.trycloudflare.com`. Because `.` is not a host character, the
greedy run is the only candidate boundary, as for the source regex. -/
def matchURLAt (l : List Char) : Option (List Char) :=
  let head := "https://".toList
  if startsWithChars l head then
    let rest := l.drop head.length
    let run := hostRun rest
    if run.length ≥ 1 ∧ startsWithChars (rest.drop run.length) ".trycloudflare.com".toList then
      some (head ++ run ++ ".trycloudflare.com".toList)
    else none
  else none

/-- Leftmost match of the URL pattern anywhere in the list. -/
def findURL : List Char → Option (List Char)
  | [] => none
  | c :: cs =>
    match matchURLAt (c :: cs) with
    | some m => some m
    | none => findURL cs

/-- Embedding of `extractTunnelURL` (tunnel.go lines 158-163):
`regexp.FindString` with the cloudflared pattern, returning the empty
string when no match exists. -/
def extractTunnelURL (line : String) : String :=
  match findURL line.toList with
  | some m => String.mk m
  | none => ""

/-- Embedding of the ready-marker test in the scan loop (tunnel.go line
87). -/
def isReadyMarker (line : String) : Bool :=
  occursIn "Tunnel credentials".toList line.toList ||
  occursIn "Your quick tunnel".toList line.toList

/-- Outcome of the URL scan of `TunnelManager.Start`: a URL was returned, a
timeout error was returned, the no-URL error was returned, or the loop is
stuck inside `scanner.Scan()` because the stream is open but silent. -/
inductive TunnelOutcome where
  | gotUrl (u : String)
  | timeoutErr
  | noUrlErr
  | blocked
deriving DecidableEq, Repr

/-- Embedding of the scan loop of `TunnelManager.Start` (tunnel.go lines
73-107). The subprocess output is a list of lines paired with their
arrival time (ms since Start), plus whether the stream closes after them.
Each iteration first looks for a URL in the line, then for a ready marker
(breaking to the no-URL error since no URL was captured earlier), and only
then polls the 15s timeout channel. When the lines run out: a closed
stream ends the loop and, with no URL captured, yields the no-URL error;
an open silent stream leaves `scanner.Scan()` blocked with no timeout
check between reads. -/
def scanForURL : List (Nat × String) → Bool → TunnelOutcome
  | [], closed =>
    if closed then TunnelOutcome.noUrlErr else TunnelOutcome.blocked
  | (t, line) :: rest, closed =>
    if extractTunnelURL line ≠ "" then TunnelOutcome.gotUrl (extractTunnelURL line)
    else if isReadyMarker line then TunnelOutcome.noUrlErr
    else if TUNNEL_TIMEOUT_MS ≤ t then TunnelOutcome.timeoutErr
    else scanForURL rest closed

/-- Whether an Except value is a success. -/
def isOkResult : Except String String → Bool
  | Except.ok _ => true
  | Except.error _ => false

/-- Which scan outcomes are accompanied by `tm.cmd.Process.Kill()` in the
source: both error returns kill the spawned process (tunnel.go lines 95
and 102); the successful return does not, and a blocked loop never reaches
a kill. -/
def tunnelKillsProcess : TunnelOutcome → Bool
  | TunnelOutcome.timeoutErr => true
  | TunnelOutcome.noUrlErr => true
  | _ => false

/-- The per-device result entry carries no error exactly when the capture
succeeded. -/
theorem scanItem_error_isNone (env : String → CaptureEnv) (d : String) :
    (scanItem env d).error.isNone = captureOk env d := by
  unfold scanItem captureOk
  cases h : (captureScreenshot (env d) d).1 <;> simp [h]

/-- C1 counterexample: a scan over mobile and tablet in which the tablet
navigation times out returns only ONE result for the TWO requested devices
(the failed device is filtered out of the results entirely), and its
status is the constant string complete, not partial. -/
theorem scan_partial_counterexample :
    ((scanHandler
        (fun d => if d = "mobile" then ⟨true, true, true, "img"⟩
                  else ⟨true, false, true, "img"⟩)
        (some ["mobile", "tablet"]) 0).results.length = 1)
    ∧ (scanHandler
        (fun d => if d = "mobile" then ⟨true, true, true, "img"⟩
                  else ⟨true, false, true, "img"⟩)
        (some ["mobile", "tablet"]) 0).status = "complete" :=
  ⟨rfl, rfl⟩

/-- C1 (amended): for every scan, the response status is the constant
string complete, and the results are exactly the successful captures, one
per succeeding requested device in request order; devices whose capture
failed are dropped from the results rather than reported with an error
field. -/
theorem scan_status_always_complete (env : String → CaptureEnv)
    (devices : List String) (now : Nat) :
    (scanHandler env (some devices) now).status = "complete"
    ∧ (scanHandler env (some devices) now).results
        = (devices.filter (captureOk env)).map (scanItem env) := by
  refine ⟨rfl, ?_⟩
  show (devices.map (scanItem env)).filter (fun r => r.error.isNone)
      = (devices.filter (captureOk env)).map (scanItem env)
  induction devices with
  | nil => rfl
  | cons d ds ih =>
    simp only [List.map_cons, List.filter_cons, scanItem_error_isNone]
    cases h : captureOk env d <;> simp [h, ih]

/-- C2 counterexample: a capture whose navigation times out releases its
concurrency slot but does NOT close the page it opened: the effects record
is slot released, page opened, page not closed. -/
theorem capture_error_page_leak_counterexample :
    (captureScreenshot ⟨true, false, true, "img"⟩ "mobile").2
      = ⟨true, true, false⟩ := rfl

/-- C2 (amended): every execution of a capture releases the concurrency
slot it acquired, but the page it opened is closed exactly when the
capture succeeds; a capture failing after opening its page (navigation
timeout or screenshot error) leaves the page open. -/
theorem capture_slot_released_page_closed_iff_ok (env : CaptureEnv) (device : String) :
    (captureScreenshot env device).2.slotReleased = true
    ∧ (captureScreenshot env device).2.pageClosed
        = isOkResult (captureScreenshot env device).1 := by
  obtain ⟨b, n, s, d⟩ := env
  cases b <;> cases n <;> cases s <;>
    simp only [captureScreenshot] <;>
    cases lookupDevice device <;> simp [isOkResult]

/-- C3 counterexample: a capture in which navigation succeeds and the
screenshot produces zero bytes of data returns that empty data as a
SUCCESS, not an EmptyCapture error. -/
theorem capture_empty_success_counterexample :
    (captureScreenshot ⟨true, true, true, ""⟩ "mobile").1 = Except.ok ""
    ∧ ("" : String).length = 0 :=
  ⟨rfl, rfl⟩

/-- C3 (amended): whenever the browser is up, the device is known and both
navigation and screenshot resolve, the capture returns whatever data the
screenshot produced, unconditionally: there is no byte-length check and no
EmptyCapture error path in the source. -/
theorem capture_returns_data_unchecked (env : CaptureEnv) (device : String)
    (hb : env.browserUp = true) (hd : (lookupDevice device).isSome = true)
    (hn : env.navOk = true) (hs : env.shotOk = true) :
    (captureScreenshot env device).1 = Except.ok env.shotData := by
  obtain ⟨v, hv⟩ := Option.isSome_iff_exists.mp hd
  simp [captureScreenshot, hb, hn, hs, hv]

/-- C3 witness: the amended theorem applied to a concrete capture whose
screenshot data is empty. -/
theorem capture_returns_data_unchecked_witness :
    (captureScreenshot ⟨true, true, true, ""⟩ "mobile").1 = Except.ok "" :=
  capture_returns_data_unchecked ⟨true, true, true, ""⟩ "mobile" rfl rfl rfl rfl

/-- C4: the health-check handler ignores the browser state entirely and
always answers HTTP 200 with the fixed ok body (never 503, no browserReady
field exists in the response), and a service whose browser initialization
fails exits the process with code 1 instead of continuing degraded. This
contradicts the CHANGELOG entries for 1.0.4 through 1.0.8, which document
a 503 degraded health response and a server that keeps running. -/
theorem health_degraded_divergence :
    (∀ b : Bool, healthHandler b
      = ⟨200, "ok", "local-screenshot-server", ["mobile", "tablet", "desktop"]⟩)
    ∧ startServer false 3001 = StartOutcome.exitProcess 1 :=
  ⟨fun _ => rfl, rfl⟩

/-- C5: every state of the shared `concurrentPages` counter reachable from
process start stays at or below the cap, the cap is 3 for the whole
process (a single counter, not one per viewport or scan), and a blocked
caller re-polls at the fixed 100ms interval. -/
theorem concurrency_cap_invariant :
    (∀ n, CapReachable n → n ≤ MAX_CONCURRENT_PAGES)
    ∧ MAX_CONCURRENT_PAGES = 3 ∧ POLL_INTERVAL_MS = 100 := by
  refine ⟨?_, rfl, rfl⟩
  intro n h
  induction h with
  | refl => simp [MAX_CONCURRENT_PAGES]
  | tail hsteps hstep ih =>
    cases hstep with
    | acquire m hm => omega
    | release m => omega
    | wait m hm => omega

/-- C5 witness: the state with two in-flight captures is reachable by two
acquisitions, and the invariant bounds it by the cap. -/
theorem concurrency_cap_invariant_witness : 2 ≤ MAX_CONCURRENT_PAGES :=
  concurrency_cap_invariant.1 2
    (Relation.ReflTransGen.tail
      (Relation.ReflTransGen.tail Relation.ReflTransGen.refl
        (CapStep.acquire 0 (by simp [MAX_CONCURRENT_PAGES])))
      (CapStep.acquire 1 (by simp [MAX_CONCURRENT_PAGES])))

/-- C6 counterexample: when the initial probe answers HTTP 503 (a running
but degraded service), the Node launcher classifies the service as not
running and `ensureServerRunning` SPAWNS a second process on the port,
so the call is not a no-op. -/
theorem ensure_degraded_spawns_counterexample :
    (ensureServerRunning 3001 true
      ⟨ProbeResult.status 503, true, fun _ => ProbeResult.noResponse⟩).2.spawned
      = true := rfl

/-- C6 (amended): when the initial probe answers 200, the Node launcher is
a no-op returning the fixed service URL with nothing spawned, however the
rest of the environment behaves; the Go supervisor is a no-op on a 200 OR
a 503 probe response. Only the Go side treats a degraded 503 service as
already running; the Node launcher spawns in that case. -/
theorem ensure_healthy_noop (port : Nat) (env : LaunchEnv) (genv : GoStartEnv)
    (hjs : env.probe = ProbeResult.status 200)
    (hgo : genv.probe = ProbeResult.status 200 ∨ genv.probe = ProbeResult.status 503) :
    ensureServerRunning port true env
      = (Except.ok ("http://localhost:" ++ toString port), ⟨false, false⟩)
    ∧ managerStart genv = (Except.ok (), ⟨false, false⟩) := by
  constructor
  · unfold ensureServerRunning
    rw [hjs]
    simp [isServerRunning]
  · unfold managerStart
    rcases hgo with h | h <;> rw [h] <;> simp [managerIsRunning]

/-- C6 witness: a healthy 200 probe makes the Node launcher a no-op, and a
degraded 503 probe makes the Go supervisor a no-op. -/
theorem ensure_healthy_noop_witness :
    ensureServerRunning 3001 true
      ⟨ProbeResult.status 200, true, fun _ => ProbeResult.noResponse⟩
      = (Except.ok ("http://localhost:" ++ toString 3001), ⟨false, false⟩)
    ∧ managerStart ⟨ProbeResult.status 503, true, fun _ => ProbeResult.noResponse⟩
      = (Except.ok (), ⟨false, false⟩) :=
  ensure_healthy_noop 3001
    ⟨ProbeResult.status 200, true, fun _ => ProbeResult.noResponse⟩
    ⟨ProbeResult.status 503, true, fun _ => ProbeResult.noResponse⟩
    rfl (Or.inr rfl)

/-- C7 counterexample: a Node launcher call that spawns the service and
then sees every health poll fail returns with the child SPAWNED and NOT
killed: the health-timeout error propagates while the spawned process is
left running. -/
theorem ensure_timeout_orphan_counterexample :
    (ensureServerRunning 3001 true
      ⟨ProbeResult.noResponse, true, fun _ => ProbeResult.noResponse⟩).2
      = ⟨true, false⟩ := rfl

/-- C7 (amended): on the health-timeout path the Go supervisor kills the
spawned process before returning its error (30 attempts at 500ms), while
the Node launcher (60 attempts at 500ms) propagates its timeout error
without killing the child it spawned. -/
theorem health_timeout_kill_split (port : Nat) (env : LaunchEnv) (genv : GoStartEnv)
    (h1 : isServerRunning env.probe = false) (h2 : env.spawnOk = true)
    (h3 : ∀ i, isServerRunning (env.polls i) = false)
    (g1 : managerIsRunning genv.probe = false) (g2 : genv.spawnOk = true)
    (g3 : ∀ i, managerIsRunning (genv.polls i) = false) :
    ensureServerRunning port true env
      = (Except.error ("Server failed to start or health check timed out on port " ++
          toString port), ⟨true, false⟩)
    ∧ managerStart genv
      = (Except.error ("screenshot server failed to start after " ++
          toString (GO_HEALTH_ATTEMPTS / 2) ++ " seconds"), ⟨true, true⟩) := by
  constructor
  · unfold ensureServerRunning waitForServer
    simp [h1, h2, List.any_eq_false, h3]
  · unfold managerStart
    simp [g1, g2, List.any_eq_false, g3]

/-- C7 witness: the split applied to concrete environments in which no
probe ever succeeds. -/
theorem health_timeout_kill_split_witness :
    ensureServerRunning 3001 true
      ⟨ProbeResult.noResponse, true, fun _ => ProbeResult.noResponse⟩
      = (Except.error ("Server failed to start or health check timed out on port " ++
          toString 3001), ⟨true, false⟩)
    ∧ managerStart ⟨ProbeResult.noResponse, true, fun _ => ProbeResult.noResponse⟩
      = (Except.error ("screenshot server failed to start after " ++
          toString (GO_HEALTH_ATTEMPTS / 2) ++ " seconds"), ⟨true, true⟩) :=
  health_timeout_kill_split 3001
    ⟨ProbeResult.noResponse, true, fun _ => ProbeResult.noResponse⟩
    ⟨ProbeResult.noResponse, true, fun _ => ProbeResult.noResponse⟩
    rfl rfl (fun _ => rfl) rfl rfl (fun _ => rfl)

/-- C8 counterexample: a tunnel subprocess that emits no output lines and
keeps its stream open leaves the URL scan blocked inside the read, so the
call does not terminate within the 15-second budget. -/
theorem tunnel_silent_stream_blocks_counterexample :
    scanForURL [] false = TunnelOutcome.blocked := rfl

/-- C8 (amended): the URL scan can block only when the output stream stays
open; whenever the stream closes the scan terminates, and both failing
terminations (timeout and no URL found) kill the spawned process. The 15s
timeout is polled only between line reads, never inside one. -/
theorem tunnel_blocked_needs_open_stream (events : List (Nat × String)) (closed : Bool) :
    (scanForURL events closed = TunnelOutcome.blocked → closed = false)
    ∧ ((scanForURL events closed = TunnelOutcome.timeoutErr
        ∨ scanForURL events closed = TunnelOutcome.noUrlErr)
      → tunnelKillsProcess (scanForURL events closed) = true) := by
  induction events with
  | nil => cases closed <;> simp [scanForURL, tunnelKillsProcess]
  | cons e rest ih =>
    obtain ⟨t, line⟩ := e
    simp only [scanForURL]
    split_ifs with h1 h2 h3
    · simp [tunnelKillsProcess]
    · simp [tunnelKillsProcess]
    · simp [tunnelKillsProcess]
    · exact ih

/-- C8 witness: an open silent stream is the blocked case, and a closed
stream with no lines fails with the no-URL error that kills the process. -/
theorem tunnel_blocked_needs_open_stream_witness :
    (false = false) ∧ tunnelKillsProcess (scanForURL [] true) = true :=
  ⟨(tunnel_blocked_needs_open_stream [] false).1 rfl,
   (tunnel_blocked_needs_open_stream [] true).2 (Or.inr rfl)⟩

/-- C9 counterexample: two distinct scan requests (different viewport
lists) accepted in the same millisecond receive IDENTICAL scanId values. -/
theorem scanId_collision_counterexample :
    (some ["mobile"] : Option (List String)) ≠ some ["tablet"]
    ∧ (scanHandler (fun _ => ⟨true, true, true, "img"⟩)
        (some ["mobile"]) 1700000000000).scanId
      = (scanHandler (fun _ => ⟨true, true, true, "img"⟩)
        (some ["tablet"]) 1700000000000).scanId :=
  ⟨by decide, rfl⟩

/-- C9 (amended): the scanId is derived solely from the acceptance
timestamp: it is the literal `scan-` followed by the epoch milliseconds,
so scans accepted within the same millisecond share a scanId. -/
theorem scanId_timestamp_derived (env : String → CaptureEnv)
    (viewports : Option (List String)) (now : Nat) :
    (scanHandler env viewports now).scanId = "scan-" ++ toString now := rfl

/-- C10: every `killServer` call ends in the port-wide sweep, whether or
not a tracked child exists and however that child reacts to SIGINT, and
the sweep force-kills every process currently listening on the port,
including processes the launcher never spawned. -/
theorem killServer_sweeps_all_listeners (env : KillEnv) (procs : List PortProc)
    (p : PortProc) (hp : p ∈ procs) (hl : p.listensOnPort = true) :
    (killServer env).portSwept = true ∧ p ∈ killPortProcess procs := by
  constructor
  · obtain ⟨t, g⟩ := env
    cases t <;> cases g <;> rfl
  · exact List.mem_filter.mpr ⟨hp, by simp [hl]⟩

/-- C10 witness: with no tracked child at all, `killServer` still sweeps
the port, and a listener the launcher never spawned is among the processes
killed. -/
theorem killServer_sweeps_all_listeners_witness :
    (killServer ⟨false, false⟩).portSwept = true
    ∧ (⟨42, true, false⟩ : PortProc) ∈ killPortProcess [⟨42, true, false⟩] :=
  killServer_sweeps_all_listeners ⟨false, false⟩ [⟨42, true, false⟩]
    ⟨42, true, false⟩ (by decide) rfl

end ViewportCLI
